import Mathlib

/-!
Verification of the MAEVN vocal pipeline DSP code.

Shallow embedding conventions:
- audio samples are rationals; a channel is a list of samples and a buffer is a
  list of channels;
- stateful JUCE library components (IIR filters, compressors, the reverb engine,
  the chorus) are opaque to the claims below, so they appear as abstract
  functions from buffers to buffers or as abstract numeric helper functions;
- the control flow, arithmetic and buffer shuffling of the repository code is
  translated line by line from Source/AIFXEngine.cpp, Source/DSPModules.h and
  Source/CinematicAudioEnhancer.cpp.
-/

abbrev Sample := ℚ

abbrev ChannelData := List Sample

abbrev Buffer := List ChannelData

namespace MAEVN

/-- juce jlimit lowerLimit upperLimit value: value clamped into the range. -/
def jlimit (lowerLimit upperLimit value : ℚ) : ℚ :=
  if value < lowerLimit then lowerLimit
  else if upperLimit < value then upperLimit
  else value

/-- Utilities.h clamp value minValue maxValue, via jmax and jmin. -/
def clamp (value minValue maxValue : ℚ) : ℚ :=
  max minValue (min value maxValue)

/-! ## AIFXEngine (AIFXEngine.cpp lines 297 to 450)

Each concrete Effect subclass mutates the audio buffer in place through its
virtual process member; the embedding treats an effect as an abstract
function from buffers to buffers, and a track chain as the mode together
with the two ordered effect lists.
-/

/-- FX Mode Types from Utilities.h. -/
inductive FXMode where
  | Off : FXMode
  | DSP : FXMode
  | AI : FXMode
  | Hybrid : FXMode
deriving DecidableEq

/-- An effect as the action of its process member on the buffer. -/
abbrev EffectFn := Buffer → Buffer

/-- TrackFX record from AIFXEngine.h: the mode and the two effect chains. -/
structure TrackFX where
  mode : FXMode
  dspEffects : List EffectFn
  aiEffects : List EffectFn

/-- Applying a list of effects in insertion order, each mutating the buffer
in place (the range-for loops of processDSP and processAI). -/
def applyEffectList (effects : List EffectFn) (buffer : Buffer) : Buffer :=
  effects.foldl (fun b e => e b) buffer

/-- AIFXEngine state: the array of NUM_TRACKS track chains. -/
structure AIFXEngine where
  trackFX : List TrackFX

/-- NUM_TRACKS from AIFXEngine.h. -/
def NUM_TRACKS : Int := 6

namespace AIFXEngine

/-- AIFXEngine processDSP: run the DSP list of the track in order. -/
def processDSP (engine : AIFXEngine) (buffer : Buffer) (trackIndex : ℕ) : Buffer :=
  match engine.trackFX[trackIndex]? with
  | some track => applyEffectList track.dspEffects buffer
  | none => buffer

/-- AIFXEngine processAI: run the AI list of the track in order. -/
def processAI (engine : AIFXEngine) (buffer : Buffer) (trackIndex : ℕ) : Buffer :=
  match engine.trackFX[trackIndex]? with
  | some track => applyEffectList track.aiEffects buffer
  | none => buffer

/-- AIFXEngine processHybrid: first the DSP effects, then the AI effects. -/
def processHybrid (engine : AIFXEngine) (buffer : Buffer) (trackIndex : ℕ) : Buffer :=
  engine.processAI (engine.processDSP buffer trackIndex) trackIndex

/-- AIFXEngine process: range check on the track index, then dispatch on the
mode of the track. -/
def process (engine : AIFXEngine) (buffer : Buffer) (trackIndex : Int) : Buffer :=
  if trackIndex < 0 ∨ NUM_TRACKS ≤ trackIndex then buffer
  else
    match engine.trackFX[trackIndex.toNat]? with
    | none => buffer
    | some track =>
      match track.mode with
      | FXMode.Off => buffer
      | FXMode.DSP => engine.processDSP buffer trackIndex.toNat
      | FXMode.AI => engine.processAI buffer trackIndex.toNat
      | FXMode.Hybrid => engine.processHybrid buffer trackIndex.toNat

end AIFXEngine

/-! ## StereoImager (CinematicAudioEnhancer.cpp lines 626 to 691)

The C++ object carries a stereo width, a mono frequency and a prepared low
pass filter.  The filter state only ever feeds makeLowPass coefficient
updates and is never read by process, so the embedding keeps the mono
frequency field (whose value the coefficients are a function of) and omits
the coefficient record itself; process below mirrors the loop at lines
655 to 670, which touches only stereoWidth.
-/

structure StereoImager where
  stereoWidth : ℚ
  monoFrequency : ℚ

namespace StereoImager

/-- One iteration of the per sample loop in StereoImager process. -/
def processSample (s : StereoImager) (left right : ℚ) : ℚ × ℚ :=
  let mid := (left + right) * (1/2)
  let side := (left - right) * (1/2)
  let side2 := side * s.stereoWidth
  (mid + side2, mid - side2)

/-- StereoImager process on a stereo pair of channels (the C++ code returns
early when fewer than two channels are present and only ever touches
channels 0 and 1). -/
def process (s : StereoImager) (left right : ChannelData) : ChannelData × ChannelData :=
  (List.zipWith (fun l r => (s.processSample l r).1) left right,
   List.zipWith (fun l r => (s.processSample l r).2) left right)

/-- StereoImager setWidth. -/
def setWidth (s : StereoImager) (w : ℚ) : StereoImager :=
  { s with stereoWidth := jlimit 0 2 w }

/-- StereoImager setMonoFrequency: updates the frequency (and in C++ the
filter coefficients derived from it); the width is untouched. -/
def setMonoFrequency (s : StereoImager) (frequency : ℚ) : StereoImager :=
  { s with monoFrequency := jlimit 50 500 frequency }

end StereoImager

/-! ## AIEffect (AIFXEngine.cpp lines 235 to 291)

The external inference backend (OnnxEngine) is modelled at its interface:
a readiness predicate per model role and an inference call that either
fails or returns a flat output sequence.
-/

/-- The OnnxEngine interface as seen by AIEffect. -/
structure OnnxEngine where
  isModelReady : String → Bool
  runInference : String → List ℚ → List ℤ → Option (List ℚ)

/-- AIEffect state: the (possibly null) backend pointer and the model role. -/
structure AIEffect where
  onnxEngine : Option OnnxEngine
  modelRole : String

namespace AIEffect

/-- The flattening loop of AIEffect process: push the first numSamples
samples of each channel, channel major. -/
def flattenInput (buffer : Buffer) (numSamples : ℕ) : List ℚ :=
  (buffer.map (fun ch => ch.take numSamples)).flatten

/-- The copy back loop of AIEffect process: sample i of channel c receives
output element c * numSamples + i when that index is inside the returned
output, and keeps its old value otherwise (the outputIndex cursor advances
only while inside, and once it falls off the end it stays off). -/
def copyOutput (out : List ℚ) (numSamples : ℕ) (buffer : Buffer) : Buffer :=
  buffer.mapIdx (fun c ch =>
    ch.mapIdx (fun i x =>
      if i < numSamples ∧ c * numSamples + i < out.length
      then out.getD (c * numSamples + i) 0
      else x))

/-- AIEffect process: pass through when the backend is null or the role not
ready; otherwise flatten, infer with shape batch one, channels, samples,
and copy back on success; pass through on inference failure. -/
def process (a : AIEffect) (buffer : Buffer) (numSamples : ℕ) : Buffer :=
  match a.onnxEngine with
  | none => buffer
  | some engine =>
    if engine.isModelReady a.modelRole = false then buffer
    else
      let input := flattenInput buffer numSamples
      let shape : List ℤ := [1, (buffer.length : ℤ), (numSamples : ℤ)]
      match engine.runInference a.modelRole input shape with
      | none => buffer
      | some out => copyOutput out numSamples buffer

end AIEffect

/-! ## LoudnessNormalizer (CinematicAudioEnhancer.cpp lines 697 to 775)

std sqrt, std log10 and the dB to linear conversion are irrational valued
library functions and appear as abstract numeric functions; the window
bookkeeping, the clamp, the one pole smoothing and the per block gain
application are translated directly.
-/

/-- LoudnessNormalizer state fields. -/
structure LoudnessNormalizer where
  targetLUFS : ℚ
  currentLUFS : ℚ
  currentGain : ℚ
  rmsSum : ℚ
  rmsSampleCount : ℕ

namespace LoudnessNormalizer

/-- RMS window size: one second at 44100 Hz. -/
def RMS_WINDOW_SIZE : ℕ := 44100

/-- LoudnessNormalizer setTargetLUFS. -/
def setTargetLUFS (s : LoudnessNormalizer) (lufs : ℚ) : LoudnessNormalizer :=
  { s with targetLUFS := jlimit (-24) (-6) lufs }

/-- LoudnessNormalizer updateGain: clamp the decibel delta toward the
target to plus or minus twelve, convert to linear, and one pole smooth the
current gain with coefficients nine tenths and one tenth. -/
def updateGain (dBToGainF : ℚ → ℚ) (s : LoudnessNormalizer) : LoudnessNormalizer :=
  let gainDB := jlimit (-12) 12 (s.targetLUFS - s.currentLUFS)
  let targetGain := dBToGainF gainDB
  { s with currentGain := s.currentGain * (9/10) + targetGain * (1/10) }

/-- The sum of squares of the first numSamples samples of every channel
(the measurement loop of process). -/
def sumSquaresOfBlock (buffer : Buffer) (numSamples : ℕ) : ℚ :=
  (buffer.map (fun ch => ((ch.take numSamples).map (fun x => x * x)).sum)).sum

/-- LoudnessNormalizer process: accumulate the sum of squares and the sample
count; once the count reaches the window size, recompute the measured level
from the RMS, update the smoothed gain and reset the window; finally apply
the current gain to the whole buffer (every block, not only at window
boundaries). -/
def process (sqrtF log10F dBToGainF : ℚ → ℚ) (s : LoudnessNormalizer)
    (buffer : Buffer) (numSamples : ℕ) : LoudnessNormalizer × Buffer :=
  let sumSquares := sumSquaresOfBlock buffer numSamples
  let newRmsSum := s.rmsSum + sumSquares
  let newCount := s.rmsSampleCount + numSamples * buffer.length
  let s2 :=
    if RMS_WINDOW_SIZE ≤ newCount then
      let rms := sqrtF (newRmsSum / (newCount : ℚ))
      let s3 := { s with
        currentLUFS := 20 * log10F (rms + 1/10000000),
        rmsSum := newRmsSum, rmsSampleCount := newCount }
      let s4 := s3.updateGain dBToGainF
      { s4 with rmsSum := 0, rmsSampleCount := 0 }
    else
      { s with rmsSum := newRmsSum, rmsSampleCount := newCount }
  (s2, buffer.map (fun ch => ch.map (fun x => x * s2.currentGain)))

end LoudnessNormalizer

/-! ## CinematicAudioEnhancer (CinematicAudioEnhancer.cpp lines 823 to 1216)

The eleven member stages are stateful objects; each is modelled as an
abstract per block function driven by the parameters the presets set
through it.  Parameter setters reproduce the clamping done by the member
setters in the source; the process body reproduces the fixed if guarded
stage sequence of lines 869 to 928.
-/

/-- CinematicAudioEnhancer state: the eleven enable flags, the parameters
the presets touch, and the abstract per block behaviour of each stage as a
function of its parameters. -/
structure CinematicAudioEnhancer where
  highPassEnabled : Bool
  presenceEQEnabled : Bool
  vocalCompressorEnabled : Bool
  cinematicReverbEnabled : Bool
  subtleDelayEnabled : Bool
  modulationEnabled : Bool
  saturationEnabled : Bool
  multibandCompressorEnabled : Bool
  stereoImagerEnabled : Bool
  loudnessNormalizerEnabled : Bool
  finalLimiterEnabled : Bool
  highPassCutoff : ℚ
  presenceFrequency : ℚ
  presenceGain : ℚ
  vocalThreshold : ℚ
  vocalRatio : ℚ
  reverbRoomSize : ℚ
  reverbWetLevel : ℚ
  reverbDryLevel : ℚ
  reverbPreDelay : ℚ
  delayTimeMs : ℚ
  delayMix : ℚ
  modulationRate : ℚ
  modulationDepth : ℚ
  modulationMix : ℚ
  saturationDrive : ℚ
  stereoWidth : ℚ
  targetLUFS : ℚ
  limiterCeiling : ℚ
  highPassProc : ℚ → Buffer → Buffer
  presenceProc : ℚ → ℚ → Buffer → Buffer
  vocalCompProc : ℚ → ℚ → Buffer → Buffer
  modulationProc : ℚ → ℚ → ℚ → Buffer → Buffer
  saturationProc : ℚ → Buffer → Buffer
  delayProc : ℚ → ℚ → Buffer → Buffer
  reverbProc : ℚ → ℚ → ℚ → ℚ → Buffer → Buffer
  multibandProc : Buffer → Buffer
  imagerProc : ℚ → Buffer → Buffer
  loudnessProc : ℚ → Buffer → Buffer
  limiterProc : ℚ → Buffer → Buffer

namespace CinematicAudioEnhancer

/-- The eleven stages in the fixed order of process, each paired with its
enable flag and applied at its current parameters. -/
def stageList (e : CinematicAudioEnhancer) : List (Bool × (Buffer → Buffer)) :=
  [(e.highPassEnabled, e.highPassProc e.highPassCutoff),
   (e.presenceEQEnabled, e.presenceProc e.presenceFrequency e.presenceGain),
   (e.vocalCompressorEnabled, e.vocalCompProc e.vocalThreshold e.vocalRatio),
   (e.modulationEnabled, e.modulationProc e.modulationRate e.modulationDepth e.modulationMix),
   (e.saturationEnabled, e.saturationProc e.saturationDrive),
   (e.subtleDelayEnabled, e.delayProc e.delayTimeMs e.delayMix),
   (e.cinematicReverbEnabled,
     e.reverbProc e.reverbRoomSize e.reverbWetLevel e.reverbDryLevel e.reverbPreDelay),
   (e.multibandCompressorEnabled, e.multibandProc),
   (e.stereoImagerEnabled, e.imagerProc e.stereoWidth),
   (e.loudnessNormalizerEnabled, e.loudnessProc e.targetLUFS),
   (e.finalLimiterEnabled, e.limiterProc e.limiterCeiling)]

/-- CinematicAudioEnhancer process: the fixed stage sequence of the source,
each stage guarded by its enable flag. -/
def process (e : CinematicAudioEnhancer) (buffer : Buffer) : Buffer :=
  (e.stageList).foldl (fun b p => if p.1 then p.2 b else b) buffer

/-- Setter: high pass enable flag. -/
def setHighPassEnabled (e : CinematicAudioEnhancer) (enabled : Bool) : CinematicAudioEnhancer :=
  { e with highPassEnabled := enabled }

/-- Setter: high pass cutoff, clamped by HighPassFilter setCutoffFrequency. -/
def setHighPassCutoff (e : CinematicAudioEnhancer) (frequency : ℚ) : CinematicAudioEnhancer :=
  { e with highPassCutoff := jlimit 20 500 frequency }

/-- Setter: presence EQ enable flag. -/
def setPresenceEQEnabled (e : CinematicAudioEnhancer) (enabled : Bool) : CinematicAudioEnhancer :=
  { e with presenceEQEnabled := enabled }

/-- Setter: presence frequency, clamped by PresenceEQ setFrequency. -/
def setPresenceFrequency (e : CinematicAudioEnhancer) (frequency : ℚ) : CinematicAudioEnhancer :=
  { e with presenceFrequency := jlimit 1000 8000 frequency }

/-- Setter: presence gain, clamped by PresenceEQ setGain. -/
def setPresenceGain (e : CinematicAudioEnhancer) (dB : ℚ) : CinematicAudioEnhancer :=
  { e with presenceGain := jlimit (-12) 12 dB }

/-- Setter: vocal compressor enable flag. -/
def setVocalCompressorEnabled (e : CinematicAudioEnhancer) (enabled : Bool) :
    CinematicAudioEnhancer :=
  { e with vocalCompressorEnabled := enabled }

/-- Setter: vocal compressor threshold, clamped by GentleCompressor. -/
def setVocalCompressorThreshold (e : CinematicAudioEnhancer) (dB : ℚ) :
    CinematicAudioEnhancer :=
  { e with vocalThreshold := jlimit (-60) 0 dB }

/-- Setter: vocal compressor ratio, clamped by GentleCompressor. -/
def setVocalCompressorRatio (e : CinematicAudioEnhancer) (r : ℚ) : CinematicAudioEnhancer :=
  { e with vocalRatio := jlimit 1 20 r }

/-- Setter: cinematic reverb enable flag. -/
def setCinematicReverbEnabled (e : CinematicAudioEnhancer) (enabled : Bool) :
    CinematicAudioEnhancer :=
  { e with cinematicReverbEnabled := enabled }

/-- Setter: reverb room size, clamped by CinematicReverb setRoomSize. -/
def setCinematicReverbSize (e : CinematicAudioEnhancer) (size : ℚ) : CinematicAudioEnhancer :=
  { e with reverbRoomSize := clamp size 0 1 }

/-- Setter: reverb mix, setting wet to mix and dry to one minus mix, each
clamped by the CinematicReverb level setters. -/
def setCinematicReverbMix (e : CinematicAudioEnhancer) (mix : ℚ) : CinematicAudioEnhancer :=
  { e with reverbWetLevel := clamp mix 0 1, reverbDryLevel := clamp (1 - mix) 0 1 }

/-- Setter: reverb pre delay, clamped by CinematicReverb setPreDelay. -/
def setCinematicReverbPreDelay (e : CinematicAudioEnhancer) (ms : ℚ) : CinematicAudioEnhancer :=
  { e with reverbPreDelay := jlimit 0 200 ms }

/-- Setter: subtle delay enable flag. -/
def setSubtleDelayEnabled (e : CinematicAudioEnhancer) (enabled : Bool) :
    CinematicAudioEnhancer :=
  { e with subtleDelayEnabled := enabled }

/-- Setter: subtle delay time, clamped by SubtleDelay setDelayTime. -/
def setSubtleDelayTime (e : CinematicAudioEnhancer) (ms : ℚ) : CinematicAudioEnhancer :=
  { e with delayTimeMs := jlimit 1 2000 ms }

/-- Setter: subtle delay mix, clamped by SubtleDelay setMix. -/
def setSubtleDelayMix (e : CinematicAudioEnhancer) (mix : ℚ) : CinematicAudioEnhancer :=
  { e with delayMix := jlimit 0 1 mix }

/-- Setter: modulation enable flag. -/
def setModulationEnabled (e : CinematicAudioEnhancer) (enabled : Bool) :
    CinematicAudioEnhancer :=
  { e with modulationEnabled := enabled }

/-- Setter: modulation rate, clamped by ModulationEffect setRate. -/
def setModulationRate (e : CinematicAudioEnhancer) (hz : ℚ) : CinematicAudioEnhancer :=
  { e with modulationRate := jlimit (1/10) 10 hz }

/-- Setter: modulation depth, clamped by ModulationEffect setDepth. -/
def setModulationDepth (e : CinematicAudioEnhancer) (depth : ℚ) : CinematicAudioEnhancer :=
  { e with modulationDepth := jlimit 0 1 depth }

/-- Setter: modulation mix, clamped by ModulationEffect setMix. -/
def setModulationMix (e : CinematicAudioEnhancer) (mix : ℚ) : CinematicAudioEnhancer :=
  { e with modulationMix := jlimit 0 1 mix }

/-- Setter: saturation enable flag. -/
def setSaturationEnabled (e : CinematicAudioEnhancer) (enabled : Bool) :
    CinematicAudioEnhancer :=
  { e with saturationEnabled := enabled }

/-- Setter: saturation drive, clamped by WarmSaturation setDrive. -/
def setSaturationDrive (e : CinematicAudioEnhancer) (drive : ℚ) : CinematicAudioEnhancer :=
  { e with saturationDrive := jlimit 0 1 drive }

/-- Setter: multiband compressor enable flag. -/
def setMultibandCompressorEnabled (e : CinematicAudioEnhancer) (enabled : Bool) :
    CinematicAudioEnhancer :=
  { e with multibandCompressorEnabled := enabled }

/-- Setter: stereo imager enable flag. -/
def setStereoImagerEnabled (e : CinematicAudioEnhancer) (enabled : Bool) :
    CinematicAudioEnhancer :=
  { e with stereoImagerEnabled := enabled }

/-- Setter: stereo width, clamped by StereoImager setWidth. -/
def setStereoWidth (e : CinematicAudioEnhancer) (width : ℚ) : CinematicAudioEnhancer :=
  { e with stereoWidth := jlimit 0 2 width }

/-- Setter: loudness normalizer enable flag. -/
def setLoudnessNormalizerEnabled (e : CinematicAudioEnhancer) (enabled : Bool) :
    CinematicAudioEnhancer :=
  { e with loudnessNormalizerEnabled := enabled }

/-- Setter: target loudness, clamped by LoudnessNormalizer setTargetLUFS. -/
def setTargetLUFS (e : CinematicAudioEnhancer) (lufs : ℚ) : CinematicAudioEnhancer :=
  { e with targetLUFS := jlimit (-24) (-6) lufs }

/-- Setter: final limiter enable flag. -/
def setFinalLimiterEnabled (e : CinematicAudioEnhancer) (enabled : Bool) :
    CinematicAudioEnhancer :=
  { e with finalLimiterEnabled := enabled }

/-- Setter: limiter ceiling, clamped by FinalLimiter setCeiling. -/
def setLimiterCeiling (e : CinematicAudioEnhancer) (dB : ℚ) : CinematicAudioEnhancer :=
  { e with limiterCeiling := jlimit (-12) 0 dB }

/-- applyCinematicVocalPreset: the exact setter sequence of
CinematicAudioEnhancer.cpp lines 1104 to 1141. -/
def applyCinematicVocalPreset (e : CinematicAudioEnhancer) : CinematicAudioEnhancer :=
  ((((((((((((((((((((((e.setHighPassEnabled true).setHighPassCutoff 80
    ).setPresenceEQEnabled true).setPresenceFrequency 4000).setPresenceGain 3
    ).setVocalCompressorEnabled true).setVocalCompressorThreshold (-18)
    ).setVocalCompressorRatio 2).setCinematicReverbEnabled true
    ).setCinematicReverbSize (8/10)).setCinematicReverbMix (1/4)
    ).setCinematicReverbPreDelay 30).setSubtleDelayEnabled true
    ).setSubtleDelayTime 300).setSubtleDelayMix (15/100)
    ).setModulationEnabled false).setSaturationEnabled false
    ).setMultibandCompressorEnabled true).setStereoImagerEnabled true
    ).setStereoWidth (12/10)).setLoudnessNormalizerEnabled true
    ).setTargetLUFS (-14)).setFinalLimiterEnabled true |>.setLimiterCeiling (-1/10)

/-- applyCinematicMasteringPreset: the exact setter sequence of
CinematicAudioEnhancer.cpp lines 1143 to 1167. -/
def applyCinematicMasteringPreset (e : CinematicAudioEnhancer) : CinematicAudioEnhancer :=
  let e1 := e.setHighPassEnabled false
  let e2 := e1.setPresenceEQEnabled false
  let e3 := e2.setVocalCompressorEnabled false
  let e4 := e3.setCinematicReverbEnabled false
  let e5 := e4.setSubtleDelayEnabled false
  let e6 := e5.setModulationEnabled false
  let e7 := e6.setSaturationEnabled true
  let e8 := e7.setSaturationDrive (1/10)
  let e9 := e8.setMultibandCompressorEnabled true
  let e10 := e9.setStereoImagerEnabled true
  let e11 := e10.setStereoWidth (13/10)
  let e12 := e11.setLoudnessNormalizerEnabled true
  let e13 := e12.setTargetLUFS (-14)
  let e14 := e13.setFinalLimiterEnabled true
  e14.setLimiterCeiling (-1/10)

/-- applyViralAppealPreset: the exact setter sequence of
CinematicAudioEnhancer.cpp lines 1169 to 1211. -/
def applyViralAppealPreset (e : CinematicAudioEnhancer) : CinematicAudioEnhancer :=
  let e1 := e.setHighPassEnabled true
  let e2 := e1.setHighPassCutoff 100
  let e3 := e2.setPresenceEQEnabled true
  let e4 := e3.setPresenceFrequency 5000
  let e5 := e4.setPresenceGain 4
  let e6 := e5.setVocalCompressorEnabled true
  let e7 := e6.setVocalCompressorThreshold (-15)
  let e8 := e7.setVocalCompressorRatio 3
  let e9 := e8.setCinematicReverbEnabled true
  let e10 := e9.setCinematicReverbSize (5/10)
  let e11 := e10.setCinematicReverbMix (2/10)
  let e12 := e11.setCinematicReverbPreDelay 20
  let e13 := e12.setSubtleDelayEnabled true
  let e14 := e13.setSubtleDelayTime 250
  let e15 := e14.setSubtleDelayMix (1/10)
  let e16 := e15.setModulationEnabled true
  let e17 := e16.setModulationRate (3/10)
  let e18 := e17.setModulationDepth (2/10)
  let e19 := e18.setModulationMix (15/100)
  let e20 := e19.setSaturationEnabled true
  let e21 := e20.setSaturationDrive (15/100)
  let e22 := e21.setMultibandCompressorEnabled true
  let e23 := e22.setStereoImagerEnabled true
  let e24 := e23.setStereoWidth (14/10)
  let e25 := e24.setLoudnessNormalizerEnabled true
  let e26 := e25.setTargetLUFS (-12)
  let e27 := e26.setFinalLimiterEnabled true
  e27.setLimiterCeiling (-1/10)

end CinematicAudioEnhancer

end MAEVN

namespace dspmodules

/-! ## Pre delay (DSPModules.h lines 871 to 891 and
CinematicAudioEnhancer.cpp lines 211 to 232)

The juce DelayLine configured with an integral delay of n samples behaves,
under the popSample then pushSample per sample discipline of the source, as
a first in first out queue of n stored samples: popSample reads the oldest
stored sample and pushSample appends the current one.  After reset the
stored history is all zeros.
-/

/-- A delay line as the queue of its stored samples, oldest first. -/
structure DelayLine where
  buf : List ℚ

namespace DelayLine

/-- popSample: read (and retire) the oldest stored sample; an empty history
reads zero. -/
def popSample (d : DelayLine) : ℚ × DelayLine :=
  (d.buf.headD 0, DelayLine.mk d.buf.tail)

/-- pushSample: append the current sample to the stored history. -/
def pushSample (d : DelayLine) (x : ℚ) : DelayLine :=
  DelayLine.mk (d.buf ++ [x])

/-- A freshly reset delay line with a delay of delaySamples: all zeros. -/
def afterReset (delaySamples : ℕ) : DelayLine :=
  DelayLine.mk (List.replicate delaySamples 0)

end DelayLine

/-- The per channel pre delay loop of EpicSpaceReverb process (DSPModules.h
lines 882 to 891) and CinematicReverb process (CinematicAudioEnhancer.cpp
lines 218 to 227): for each sample, first popSample, then pushSample the
current dry sample, then overwrite the slot with the delayed value. -/
def preDelayChannel : DelayLine → List ℚ → List ℚ × DelayLine
  | d, [] => ([], d)
  | d, x :: xs =>
    let popped := d.popSample
    let d2 := popped.2.pushSample x
    let rest := preDelayChannel d2 xs
    (popped.1 :: rest.1, rest.2)

/-- A unit impulse block of m samples: a one followed by zeros. -/
def unitImpulse (m : ℕ) : List ℚ :=
  1 :: List.replicate (m - 1) 0

/-! ## MultibandCompressor (DSPModules.h lines 27 to 206, and the identical
band arithmetic of MAEVN MultibandCompressor in CinematicAudioEnhancer.cpp
lines 519 to 581)

The Linkwitz Riley crossover filters and the per band juce compressors are
stateful library components; the embedding abstracts each as a function on
one channel of samples.  The band bookkeeping (copy input to the three band
buffers, filter low and high, derive mid by subtraction, compress, sum) is
translated directly.
-/

/-- The mid band derivation loop: midData i = originalData i - lowData i -
highData i. -/
def subtractBand (original low high : List ℚ) : List ℚ :=
  List.zipWith (fun a b => a - b) (List.zipWith (fun a b => a - b) original low) high

namespace MultibandCompressor

/-- The three band buffers of one channel right after the crossover filters
and the mid subtraction, before any band compressor runs. -/
def splitBands (lowCrossover highCrossover : List ℚ → List ℚ) (x : List ℚ) :
    List ℚ × List ℚ × List ℚ :=
  let low := lowCrossover x
  let high := highCrossover x
  let mid := subtractBand x low high
  (low, mid, high)

/-- The final summation loop: outputData i = lowData i + midData i +
highData i. -/
def sumBands (low mid high : List ℚ) : List ℚ :=
  List.zipWith (fun a b => a + b) (List.zipWith (fun a b => a + b) low mid) high

/-- MultibandCompressor process on one channel: split, compress each band,
sum. -/
def process (lowCrossover highCrossover lowComp midComp highComp : List ℚ → List ℚ)
    (x : List ℚ) : List ℚ :=
  let bands := splitBands lowCrossover highCrossover x
  sumBands (lowComp bands.1) (midComp bands.2.1) (highComp bands.2.2)

end MultibandCompressor

/-! ## DeEsser (DSPModules.h lines 310 to 418)

The sidechain high pass filter is a stateful library component, abstracted
as a function on buffers; std pow and the dB conversion of Utilities.h are
irrational valued and appear as abstract numeric functions.  The per sample
detection and gain application loop of process is translated directly.
-/

/-- DeEsser parameter state (DSPModules.h lines 409 to 411). -/
structure DeEsser where
  frequency : ℚ
  threshold : ℚ
  ratio : ℚ

namespace DeEsser

/-- DeEsser setFrequency. -/
def setFrequency (d : DeEsser) (freq : ℚ) : DeEsser :=
  { d with frequency := MAEVN.jlimit 2000 10000 freq }

/-- DeEsser setThreshold. -/
def setThreshold (d : DeEsser) (dB : ℚ) : DeEsser :=
  { d with threshold := MAEVN.jlimit (-60) 0 dB }

/-- DeEsser setRatio: the ratio is clamped into the range one to twenty. -/
def setRatio (d : DeEsser) (r : ℚ) : DeEsser :=
  { d with ratio := MAEVN.jlimit 1 20 r }

/-- The sibilance measurement at sample i: mean absolute value of the
filtered sidechain across channels. -/
def sibilanceLevelAt (sideChain : Buffer) (i : ℕ) : ℚ :=
  (sideChain.map (fun ch => |ch.getD i 0|)).sum / (sideChain.length : ℚ)

/-- The gain reduction computed for one sample from the sibilance level:
one when at or below the linear threshold, otherwise the reciprocal of
pow (sibilance over threshold) (one minus one over ratio). -/
def gainReductionAt (powF : ℚ → ℚ → ℚ) (dBToGainF : ℚ → ℚ)
    (d : DeEsser) (sibilanceLevel : ℚ) : ℚ :=
  let thresholdLinear := dBToGainF d.threshold
  if thresholdLinear < sibilanceLevel then
    let overThreshold := sibilanceLevel / thresholdLinear
    1 / powF overThreshold (1 - 1 / d.ratio)
  else 1

/-- DeEsser process: copy the buffer into the sidechain, filter it, then
scale each original sample by the gain derived from the filtered copy. -/
def process (powF : ℚ → ℚ → ℚ) (dBToGainF : ℚ → ℚ)
    (sibilanceFilter : Buffer → Buffer) (d : DeEsser) (buffer : Buffer) : Buffer :=
  let sideChain := sibilanceFilter buffer
  buffer.map (fun ch =>
    ch.mapIdx (fun i x =>
      x * d.gainReductionAt powF dBToGainF (sibilanceLevelAt sideChain i)))

end DeEsser

end dspmodules

/-- Concrete effect for examples: double every sample. -/
def exampleDoubleEffect : MAEVN.EffectFn :=
  fun b => b.map (fun ch => ch.map (fun x => x * 2))

/-- Concrete effect for examples: add one to every sample. -/
def exampleAddEffect : MAEVN.EffectFn :=
  fun b => b.map (fun ch => ch.map (fun x => x + 1))

/-- Concrete hybrid track for examples. -/
def exampleHybridTrack : MAEVN.TrackFX :=
  MAEVN.TrackFX.mk MAEVN.FXMode.Hybrid [exampleDoubleEffect] [exampleAddEffect]

/-- Concrete engine for examples. -/
def exampleEngine : MAEVN.AIFXEngine :=
  MAEVN.AIFXEngine.mk [exampleHybridTrack]

theorem jlimit_le_right (lo hi v : ℚ) (h : lo ≤ hi) : MAEVN.jlimit lo hi v ≤ hi := by
  unfold MAEVN.jlimit
  split <;> [exact h; skip]
  split <;> [exact le_refl hi; linarith [not_lt.mp (by assumption : ¬ hi < v)]]

theorem le_jlimit_left (lo hi v : ℚ) (h : lo ≤ hi) : lo ≤ MAEVN.jlimit lo hi v := by
  unfold MAEVN.jlimit
  split
  · exact le_refl lo
  · split
    · exact h
    · linarith [not_lt.mp (by assumption : ¬ v < lo)]

/-- C1: AIFXEngine process dispatch: for a valid track, mode Off leaves the
buffer unmodified; mode DSP applies exactly the DSP effect list in insertion
order; mode AI applies exactly the AI effect list in insertion order; mode
Hybrid applies the full DSP list first and then the full AI list on the same
buffer, order preserved. -/
theorem aifx_mode_dispatch
    (engine : MAEVN.AIFXEngine) (buffer : Buffer) (trackIndex : Int)
    (track : MAEVN.TrackFX)
    (h0 : 0 ≤ trackIndex) (h6 : trackIndex < MAEVN.NUM_TRACKS)
    (htrack : engine.trackFX[trackIndex.toNat]? = some track) :
    (track.mode = MAEVN.FXMode.Off →
        engine.process buffer trackIndex = buffer)
    ∧ (track.mode = MAEVN.FXMode.DSP →
        engine.process buffer trackIndex = MAEVN.applyEffectList track.dspEffects buffer)
    ∧ (track.mode = MAEVN.FXMode.AI →
        engine.process buffer trackIndex = MAEVN.applyEffectList track.aiEffects buffer)
    ∧ (track.mode = MAEVN.FXMode.Hybrid →
        engine.process buffer trackIndex
          = MAEVN.applyEffectList track.aiEffects
              (MAEVN.applyEffectList track.dspEffects buffer)) := by
  have hrange : ¬ (trackIndex < 0 ∨ MAEVN.NUM_TRACKS ≤ trackIndex) := by
    push_neg
    exact ⟨h0, h6⟩
  refine ⟨?_, ?_, ?_, ?_⟩ <;> intro hmode <;>
    simp [MAEVN.AIFXEngine.process, MAEVN.AIFXEngine.processDSP,
      MAEVN.AIFXEngine.processAI, MAEVN.AIFXEngine.processHybrid,
      hrange, htrack, hmode]

/-- C1 witness: the dispatch theorem applied to a concrete engine whose
track 0 is in Hybrid mode with one DSP effect and one AI effect. -/
theorem aifx_mode_dispatch_witness :
    exampleEngine.process [[3]] 0 = [[7]] := by
  have h := (aifx_mode_dispatch exampleEngine [[3]] 0 exampleHybridTrack
    (by norm_num) (by norm_num [MAEVN.NUM_TRACKS]) rfl).2.2.2 rfl
  rw [h]
  norm_num [MAEVN.applyEffectList, exampleHybridTrack, exampleDoubleEffect, exampleAddEffect]

/-- Helper: a pointwise left projection zipped over equal length lists is the
left list. -/
theorem zipWith_eq_left (f : ℚ → ℚ → ℚ) (hf : ∀ a b, f a b = a) :
    ∀ (l r : List ℚ), l.length = r.length → List.zipWith f l r = l := by
  intro l
  induction l with
  | nil => intro r _; simp
  | cons a as ih =>
    intro r hr
    cases r with
    | nil => simp at hr
    | cons b bs => simp [List.zipWith, hf, ih bs (by simpa using hr)]

/-- Helper: a pointwise right projection zipped over equal length lists is the
right list. -/
theorem zipWith_eq_right (f : ℚ → ℚ → ℚ) (hf : ∀ a b, f a b = b) :
    ∀ (l r : List ℚ), l.length = r.length → List.zipWith f l r = r := by
  intro l
  induction l with
  | nil =>
    intro r hr
    cases r with
    | nil => simp
    | cons b bs => simp at hr
  | cons a as ih =>
    intro r hr
    cases r with
    | nil => simp at hr
    | cons b bs => simp [List.zipWith, hf, ih bs (by simpa using hr)]

/-- C7: for every stereo input block, the stereo imager with width set to 1.0
reproduces the input exactly: with mid = (L+R)/2 and side = (L-R)/2 scaled by
1.0, the reconstruction mid+side, mid-side returns L and R unchanged. -/
theorem stereo_imager_unity_width_identity
    (s : MAEVN.StereoImager) (left right : ChannelData)
    (hlen : left.length = right.length) :
    (s.setWidth 1).process left right = (left, right) := by
  have hw : (s.setWidth 1).stereoWidth = 1 := by
    simp [MAEVN.StereoImager.setWidth, MAEVN.jlimit]
  have h1 := zipWith_eq_left (fun l r => ((s.setWidth 1).processSample l r).1)
    (fun a b => by simp only [MAEVN.StereoImager.processSample, hw]; ring)
    left right hlen
  have h2 := zipWith_eq_right (fun l r => ((s.setWidth 1).processSample l r).2)
    (fun a b => by simp only [MAEVN.StereoImager.processSample, hw]; ring)
    left right hlen
  simp [MAEVN.StereoImager.process, h1, h2]

/-- C7 witness: applying the unity width identity theorem at a concrete
stereo block. -/
theorem stereo_imager_unity_width_identity_witness :
    (MAEVN.StereoImager.mk (3/2) 200 |>.setWidth 1).process [1, 2, 3] [4, 5, 6]
      = ([1, 2, 3], [4, 5, 6]) :=
  stereo_imager_unity_width_identity (MAEVN.StereoImager.mk (3/2) 200) [1, 2, 3] [4, 5, 6] rfl

/-- C9: the mono frequency parameter of the stereo imager has no effect on the
processed audio: for every stereo input and every two frequency values passed
to setMonoFrequency, process produces identical output, because the prepared
low pass filter is never applied in the processing path. -/
theorem stereo_imager_mono_frequency_no_effect
    (s : MAEVN.StereoImager) (f1 f2 : ℚ) (left right : ChannelData) :
    (s.setMonoFrequency f1).process left right
      = (s.setMonoFrequency f2).process left right := rfl

theorem preDelayChannel_eq_take (xs : List ℚ) :
    ∀ d : dspmodules.DelayLine, d.buf ≠ [] →
      (dspmodules.preDelayChannel d xs).1 = (d.buf ++ xs).take xs.length := by
  induction xs with
  | nil => intro d _; simp [dspmodules.preDelayChannel]
  | cons x xs ih =>
    intro d hd
    obtain ⟨b, bs, hb⟩ := List.exists_cons_of_ne_nil hd
    have ih2 := ih (dspmodules.DelayLine.mk (bs ++ [x])) (by simp)
    simp only [dspmodules.preDelayChannel, dspmodules.DelayLine.popSample,
      dspmodules.DelayLine.pushSample, hb, List.headD_cons, List.tail_cons,
      ih2, List.length_cons, List.cons_append, List.take_succ_cons]
    simp [List.append_assoc]

/-- C4: the reverb pre delay pops the delayed sample before pushing the
current dry sample, so a freshly reset pre delay line of n samples turns a
unit impulse block into exactly n samples of silence followed by the
unscaled impulse. -/
theorem predelay_impulse_response (n k : ℕ) (hn : 1 ≤ n) :
    (dspmodules.preDelayChannel (dspmodules.DelayLine.afterReset n)
        (dspmodules.unitImpulse (n + k + 1))).1
      = List.replicate n 0 ++ dspmodules.unitImpulse (k + 1) := by
  have hbuf : (dspmodules.DelayLine.afterReset n).buf ≠ [] := by
    simp [dspmodules.DelayLine.afterReset]
    omega
  rw [preDelayChannel_eq_take _ _ hbuf]
  simp only [dspmodules.DelayLine.afterReset, dspmodules.unitImpulse]
  have hlen : (1 :: List.replicate (n + k + 1 - 1) (0 : ℚ)).length = n + (k + 1) := by
    simp
    omega
  rw [hlen]
  rw [show n + k + 1 - 1 = n + k by omega]
  rw [List.take_append_eq_append_take]
  simp [List.take_replicate]

/-- C4 witness: the theorem applied at delay three and a six sample impulse
block. -/
theorem predelay_impulse_response_witness :
    (dspmodules.preDelayChannel (dspmodules.DelayLine.afterReset 3)
        (dspmodules.unitImpulse 6)).1 = [0, 0, 0, 1, 0, 0] := by
  have h := predelay_impulse_response 3 2 (by norm_num)
  norm_num [dspmodules.unitImpulse] at h ⊢
  rw [h]
  simp [List.replicate]

/-- C2: the three band buffers computed by the multiband compressor before
per band compression sum back to the input, sample for sample and exactly,
because the mid band is derived as input minus low minus high. -/
theorem multiband_band_sum (lowCrossover highCrossover : List ℚ → List ℚ) (x : List ℚ)
    (hlow : (lowCrossover x).length = x.length)
    (hhigh : (highCrossover x).length = x.length) :
    dspmodules.MultibandCompressor.sumBands
      (dspmodules.MultibandCompressor.splitBands lowCrossover highCrossover x).1
      (dspmodules.MultibandCompressor.splitBands lowCrossover highCrossover x).2.1
      (dspmodules.MultibandCompressor.splitBands lowCrossover highCrossover x).2.2
      = x := by
  simp only [dspmodules.MultibandCompressor.splitBands,
    dspmodules.MultibandCompressor.sumBands, dspmodules.subtractBand]
  apply List.ext_getElem
  · simp [hlow, hhigh]
  · intro i h1 h2
    simp only [List.getElem_zipWith]
    ring

/-- C2 witness: the band sum theorem applied to concrete crossover filters
(halving and quartering maps, which preserve length) on a concrete block. -/
theorem multiband_band_sum_witness :
    dspmodules.MultibandCompressor.sumBands
      (dspmodules.MultibandCompressor.splitBands
        (fun ch => ch.map (fun v => v * (1/2))) (fun ch => ch.map (fun v => v * (1/4))) [8, 12]).1
      (dspmodules.MultibandCompressor.splitBands
        (fun ch => ch.map (fun v => v * (1/2))) (fun ch => ch.map (fun v => v * (1/4))) [8, 12]).2.1
      (dspmodules.MultibandCompressor.splitBands
        (fun ch => ch.map (fun v => v * (1/2))) (fun ch => ch.map (fun v => v * (1/4))) [8, 12]).2.2
      = [8, 12] :=
  multiband_band_sum (fun ch => ch.map (fun v => v * (1/2)))
    (fun ch => ch.map (fun v => v * (1/4))) [8, 12] (by simp) (by simp)

/-- Helper: pointwise description of the DeEsser process output. -/
theorem deesser_process_pointwise
    (powF : ℚ → ℚ → ℚ) (dBToGainF : ℚ → ℚ) (sibilanceFilter : Buffer → Buffer)
    (d : dspmodules.DeEsser) (buffer : Buffer) (c i : ℕ)
    (hc : c < buffer.length) (hi : i < (buffer.getD c []).length) :
    ((d.process powF dBToGainF sibilanceFilter buffer).getD c []).getD i 0
      = (buffer.getD c []).getD i 0
          * d.gainReductionAt powF dBToGainF
              (dspmodules.DeEsser.sibilanceLevelAt (sibilanceFilter buffer) i) := by
  unfold dspmodules.DeEsser.process
  have hc2 : c < (buffer.map (fun ch =>
      ch.mapIdx (fun i x => x * d.gainReductionAt powF dBToGainF
        (dspmodules.DeEsser.sibilanceLevelAt (sibilanceFilter buffer) i)))).length := by
    simpa using hc
  rw [List.getD_eq_getElem _ _ hc2, List.getElem_map]
  rw [List.getD_eq_getElem _ _ hc]
  have hi2 : i < ((buffer[c]).mapIdx (fun i x => x * d.gainReductionAt powF dBToGainF
      (dspmodules.DeEsser.sibilanceLevelAt (sibilanceFilter buffer) i))).length := by
    rw [List.length_mapIdx]
    rw [List.getD_eq_getElem _ _ hc] at hi
    exact hi
  rw [List.getD_eq_getElem _ _ hi2]
  rw [List.getD_eq_getElem _ _ (by rw [List.getD_eq_getElem _ _ hc] at hi; exact hi)]
  simp [List.mapIdx_eq_ofFn]

/-- C6: the de-esser computes the sibilance level at each sample as the mean
absolute value across channels of the high pass filtered sidechain copy, and
multiplies the original signal at that sample by the derived gain; at or
below the linear threshold the gain is one, so the sample is unchanged, and
the filtered copy itself is never written to the output. -/
theorem deesser_sidechain_gain
    (powF : ℚ → ℚ → ℚ) (dBToGainF : ℚ → ℚ) (sibilanceFilter : Buffer → Buffer)
    (d : dspmodules.DeEsser) (buffer : Buffer) (c i : ℕ)
    (hc : c < buffer.length) (hi : i < (buffer.getD c []).length) :
    ((d.process powF dBToGainF sibilanceFilter buffer).getD c []).getD i 0
      = (buffer.getD c []).getD i 0
          * d.gainReductionAt powF dBToGainF
              (dspmodules.DeEsser.sibilanceLevelAt (sibilanceFilter buffer) i)
    ∧ (dspmodules.DeEsser.sibilanceLevelAt (sibilanceFilter buffer) i
          ≤ dBToGainF d.threshold →
        ((d.process powF dBToGainF sibilanceFilter buffer).getD c []).getD i 0
          = (buffer.getD c []).getD i 0) := by
  refine ⟨deesser_process_pointwise powF dBToGainF sibilanceFilter d buffer c i hc hi, ?_⟩
  intro hlevel
  rw [deesser_process_pointwise powF dBToGainF sibilanceFilter d buffer c i hc hi]
  simp only [dspmodules.DeEsser.gainReductionAt]
  rw [if_neg (not_lt.mpr hlevel)]
  ring

/-- C6 witness: the theorem applied to a concrete de-esser and block with an
identity sidechain filter. -/
theorem deesser_sidechain_gain_witness :
    (((dspmodules.DeEsser.mk 6000 0 4).process (fun x _ => x) (fun _ => 2)
        (fun b => b) [[3, 1]]).getD 0 []).getD 1 0 = 1 := by
  have h := (deesser_sidechain_gain (fun x _ => x) (fun _ => 2) (fun b => b)
    (dspmodules.DeEsser.mk 6000 0 4) [[3, 1]] 0 1
    (by norm_num) (by norm_num)).2
  have hlev : dspmodules.DeEsser.sibilanceLevelAt ((fun (b : Buffer) => b) [[3, 1]]) 1 ≤ 2 := by
    norm_num [dspmodules.DeEsser.sibilanceLevelAt]
  rw [h hlev]
  norm_num

/-- Helper: the de-esser gain is strictly positive and at most one whenever
the ratio is at least one, the linear threshold is positive, and pow is at
least one on arguments at least one with nonnegative exponent. -/
theorem deesser_gain_bounds
    (powF : ℚ → ℚ → ℚ) (dBToGainF : ℚ → ℚ) (d : dspmodules.DeEsser) (level : ℚ)
    (hratio : 1 ≤ d.ratio) (hthr : 0 < dBToGainF d.threshold)
    (hpow : ∀ x e, 1 ≤ x → 0 ≤ e → 1 ≤ powF x e) :
    0 < d.gainReductionAt powF dBToGainF level
      ∧ d.gainReductionAt powF dBToGainF level ≤ 1 := by
  simp only [dspmodules.DeEsser.gainReductionAt]
  by_cases hover : dBToGainF d.threshold < level
  · rw [if_pos hover]
    have hx : 1 ≤ level / dBToGainF d.threshold := by
      rw [le_div_iff₀ hthr]
      linarith
    have he : 0 ≤ 1 - 1 / d.ratio := by
      have : 1 / d.ratio ≤ 1 := by
        rw [div_le_one (by linarith)]
        exact hratio
      linarith
    have hp := hpow _ _ hx he
    constructor
    · positivity
    · rw [div_le_one (by linarith)]
      exact hp
  · rw [if_neg hover]
    exact ⟨one_pos, le_refl 1⟩

/-- C10: with the ratio clamped to at least one by setRatio, the de-esser
gain is always in the half open interval from zero to one, so the absolute
value of every output sample is at most that of the input sample: the
de-esser never amplifies. -/
theorem deesser_never_amplifies
    (powF : ℚ → ℚ → ℚ) (dBToGainF : ℚ → ℚ) (sibilanceFilter : Buffer → Buffer)
    (d0 : dspmodules.DeEsser) (r : ℚ) (buffer : Buffer) (c i : ℕ)
    (hthr : 0 < dBToGainF (d0.setRatio r).threshold)
    (hpow : ∀ x e, 1 ≤ x → 0 ≤ e → 1 ≤ powF x e)
    (hc : c < buffer.length) (hi : i < (buffer.getD c []).length) :
    (0 < (d0.setRatio r).gainReductionAt powF dBToGainF
          (dspmodules.DeEsser.sibilanceLevelAt (sibilanceFilter buffer) i)
      ∧ (d0.setRatio r).gainReductionAt powF dBToGainF
          (dspmodules.DeEsser.sibilanceLevelAt (sibilanceFilter buffer) i) ≤ 1)
    ∧ |(((d0.setRatio r).process powF dBToGainF sibilanceFilter buffer).getD c []).getD i 0|
        ≤ |(buffer.getD c []).getD i 0| := by
  have hratio : 1 ≤ (d0.setRatio r).ratio :=
    le_jlimit_left 1 20 r (by norm_num)
  have hbounds := deesser_gain_bounds powF dBToGainF (d0.setRatio r)
    (dspmodules.DeEsser.sibilanceLevelAt (sibilanceFilter buffer) i) hratio hthr hpow
  refine ⟨hbounds, ?_⟩
  rw [deesser_process_pointwise powF dBToGainF sibilanceFilter (d0.setRatio r) buffer c i hc hi]
  rw [abs_mul]
  have hg : |(d0.setRatio r).gainReductionAt powF dBToGainF
      (dspmodules.DeEsser.sibilanceLevelAt (sibilanceFilter buffer) i)|
      = (d0.setRatio r).gainReductionAt powF dBToGainF
        (dspmodules.DeEsser.sibilanceLevelAt (sibilanceFilter buffer) i) :=
    abs_of_pos hbounds.1
  rw [hg]
  exact mul_le_of_le_one_right (abs_nonneg _) hbounds.2

/-- C10 witness: the theorem applied at a concrete de-esser, block and
sample where the sibilance is above threshold. -/
theorem deesser_never_amplifies_witness :
    |(((dspmodules.DeEsser.mk 6000 0 1).setRatio 4).process (fun x _ => x) (fun _ => 2)
        (fun b => b) [[3, 1]]).getD 0 []
      |>.getD 0 0| ≤ |(([[(3 : ℚ), 1]] : Buffer).getD 0 []).getD 0 0| :=
  (deesser_never_amplifies (fun x _ => x) (fun _ => 2) (fun b => b)
    (dspmodules.DeEsser.mk 6000 0 1) 4 [[3, 1]] 0 0
    (by norm_num) (fun x e hx _ => hx) (by norm_num) (by norm_num)).2

/-- C3: AIEffect process is an exact pass through whenever the backend is
null, the backend reports the model role not ready, or the inference call
fails: the block is returned byte for byte identical, and since the
embedding is a total function no error is thrown or propagated. -/
theorem aieffect_pass_through
    (a : MAEVN.AIEffect) (buffer : Buffer) (numSamples : ℕ) :
    (a.onnxEngine = none → a.process buffer numSamples = buffer)
    ∧ (∀ engine, a.onnxEngine = some engine →
        engine.isModelReady a.modelRole = false →
        a.process buffer numSamples = buffer)
    ∧ (∀ engine, a.onnxEngine = some engine →
        engine.runInference a.modelRole
            (MAEVN.AIEffect.flattenInput buffer numSamples)
            [1, (buffer.length : ℤ), (numSamples : ℤ)] = none →
        a.process buffer numSamples = buffer) := by
  refine ⟨?_, ?_, ?_⟩
  · intro hnull
    simp [MAEVN.AIEffect.process, hnull]
  · intro engine hsome hready
    simp [MAEVN.AIEffect.process, hsome, hready]
  · intro engine hsome hfail
    by_cases hready : engine.isModelReady a.modelRole = false
    · simp [MAEVN.AIEffect.process, hsome, hready]
    · simp [MAEVN.AIEffect.process, hsome, hready, hfail]

/-- C3 witness: the theorem applied to a concrete effect whose backend
reports the role not ready. -/
theorem aieffect_pass_through_witness :
    (MAEVN.AIEffect.mk
        (some (MAEVN.OnnxEngine.mk (fun _ => false) (fun _ _ _ => none)))
        "vocal-clarity").process [[5, 6]] 2 = [[5, 6]] :=
  (aieffect_pass_through
    (MAEVN.AIEffect.mk
        (some (MAEVN.OnnxEngine.mk (fun _ => false) (fun _ _ _ => none)))
        "vocal-clarity") [[5, 6]] 2).2.1
    (MAEVN.OnnxEngine.mk (fun _ => false) (fun _ _ _ => none)) rfl rfl

/-- C5: the loudness normalizer recomputes its gain only when the
accumulated sample count reaches the window size of 44100; at that point
the decibel delta toward the target is clamped to plus or minus twelve and
the linear gain is smoothed by gain times nine tenths plus target times one
tenth; and the current smoothed gain is applied to every processed block,
not only at window boundaries. -/
theorem loudness_normalizer_gain_schedule
    (sqrtF log10F dBToGainF : ℚ → ℚ) (s : MAEVN.LoudnessNormalizer)
    (buffer : Buffer) (numSamples : ℕ) :
    (s.rmsSampleCount + numSamples * buffer.length
        < MAEVN.LoudnessNormalizer.RMS_WINDOW_SIZE →
      (MAEVN.LoudnessNormalizer.process sqrtF log10F dBToGainF s buffer numSamples).1.currentGain
          = s.currentGain
        ∧ (MAEVN.LoudnessNormalizer.process sqrtF log10F dBToGainF s buffer
            numSamples).1.currentLUFS = s.currentLUFS)
    ∧ (MAEVN.LoudnessNormalizer.RMS_WINDOW_SIZE
        ≤ s.rmsSampleCount + numSamples * buffer.length →
      (MAEVN.LoudnessNormalizer.process sqrtF log10F dBToGainF s buffer numSamples).1.currentGain
          = s.currentGain * (9/10)
            + dBToGainF (MAEVN.jlimit (-12) 12 (s.targetLUFS
                - 20 * log10F (sqrtF ((s.rmsSum
                      + MAEVN.LoudnessNormalizer.sumSquaresOfBlock buffer numSamples)
                    / ((s.rmsSampleCount + numSamples * buffer.length : ℕ) : ℚ))
                  + 1/10000000))) * (1/10)
        ∧ (MAEVN.LoudnessNormalizer.process sqrtF log10F dBToGainF s buffer
            numSamples).1.rmsSampleCount = 0)
    ∧ (MAEVN.LoudnessNormalizer.process sqrtF log10F dBToGainF s buffer numSamples).2
        = buffer.map (fun ch => ch.map (fun x =>
            x * (MAEVN.LoudnessNormalizer.process sqrtF log10F dBToGainF s buffer
              numSamples).1.currentGain)) := by
  refine ⟨?_, ?_, rfl⟩
  · intro h
    have hcond : ¬ (MAEVN.LoudnessNormalizer.RMS_WINDOW_SIZE
        ≤ s.rmsSampleCount + numSamples * buffer.length) := not_le.mpr h
    simp only [MAEVN.LoudnessNormalizer.process, if_neg hcond]
    constructor <;> trivial
  · intro h
    simp only [MAEVN.LoudnessNormalizer.process, MAEVN.LoudnessNormalizer.updateGain,
      if_pos h]
    constructor <;> trivial

/-- C5 witness: the theorem applied below the window boundary (gain kept)
and at the window boundary (window counter reset), at concrete states. -/
theorem loudness_normalizer_gain_schedule_witness :
    (MAEVN.LoudnessNormalizer.process id id (fun _ => 1)
        (MAEVN.LoudnessNormalizer.mk (-14) (-24) 1 0 0) [[1]] 1).1.currentGain = 1
    ∧ (MAEVN.LoudnessNormalizer.process id id (fun _ => 1)
        (MAEVN.LoudnessNormalizer.mk (-14) (-24) 1 0 44100) [[1]] 1).1.rmsSampleCount = 0 :=
  ⟨((loudness_normalizer_gain_schedule id id (fun _ => 1)
      (MAEVN.LoudnessNormalizer.mk (-14) (-24) 1 0 0) [[1]] 1).1
      (by norm_num [MAEVN.LoudnessNormalizer.RMS_WINDOW_SIZE])).1,
   ((loudness_normalizer_gain_schedule id id (fun _ => 1)
      (MAEVN.LoudnessNormalizer.mk (-14) (-24) 1 0 44100) [[1]] 1).2.1
      (by norm_num [MAEVN.LoudnessNormalizer.RMS_WINDOW_SIZE])).2⟩

/-- Helper: folding flag guarded stages equals folding only the enabled
stages. -/
theorem foldl_guarded_eq_foldl_enabled {α : Type}
    (l : List (Bool × (α → α))) (b : α) :
    l.foldl (fun x p => if p.1 then p.2 x else x) b
      = (l.filterMap (fun p => if p.1 then some p.2 else none)).foldl
          (fun x f => f x) b := by
  induction l generalizing b with
  | nil => rfl
  | cons p ps ih =>
    cases hp : p.1 with
    | true => simp [List.foldl, List.filterMap, hp, ih]
    | false => simp [List.foldl, List.filterMap, hp, ih]

/-- C8: the mastering orchestrator applies exactly the enabled stages, in
the fixed order high pass, presence EQ, gentle compressor, modulation,
saturation, delay, reverb, multiband compressor, stereo imager, loudness
normalizer, final limiter, with each stage running exactly when its flag is
enabled; and applying any of the three presets of the source (cinematic
vocal, cinematic mastering, viral appeal) changes only parameters and
flags, never the stage behaviours or their order. -/
theorem enhancer_fixed_stage_order
    (e : MAEVN.CinematicAudioEnhancer) (buffer : Buffer) :
    (e.process buffer
        = ((e.stageList).filterMap (fun p => if p.1 then some p.2 else none)).foldl
            (fun b f => f b) buffer)
    ∧ ((e.applyCinematicMasteringPreset).highPassProc = e.highPassProc
        ∧ (e.applyCinematicMasteringPreset).presenceProc = e.presenceProc
        ∧ (e.applyCinematicMasteringPreset).vocalCompProc = e.vocalCompProc
        ∧ (e.applyCinematicMasteringPreset).modulationProc = e.modulationProc
        ∧ (e.applyCinematicMasteringPreset).saturationProc = e.saturationProc
        ∧ (e.applyCinematicMasteringPreset).delayProc = e.delayProc
        ∧ (e.applyCinematicMasteringPreset).reverbProc = e.reverbProc
        ∧ (e.applyCinematicMasteringPreset).multibandProc = e.multibandProc
        ∧ (e.applyCinematicMasteringPreset).imagerProc = e.imagerProc
        ∧ (e.applyCinematicMasteringPreset).loudnessProc = e.loudnessProc
        ∧ (e.applyCinematicMasteringPreset).limiterProc = e.limiterProc)
    ∧ ((e.applyViralAppealPreset).highPassProc = e.highPassProc
        ∧ (e.applyViralAppealPreset).presenceProc = e.presenceProc
        ∧ (e.applyViralAppealPreset).vocalCompProc = e.vocalCompProc
        ∧ (e.applyViralAppealPreset).modulationProc = e.modulationProc
        ∧ (e.applyViralAppealPreset).saturationProc = e.saturationProc
        ∧ (e.applyViralAppealPreset).delayProc = e.delayProc
        ∧ (e.applyViralAppealPreset).reverbProc = e.reverbProc
        ∧ (e.applyViralAppealPreset).multibandProc = e.multibandProc
        ∧ (e.applyViralAppealPreset).imagerProc = e.imagerProc
        ∧ (e.applyViralAppealPreset).loudnessProc = e.loudnessProc
        ∧ (e.applyViralAppealPreset).limiterProc = e.limiterProc)
    ∧ ((e.applyCinematicVocalPreset).highPassProc = e.highPassProc
        ∧ (e.applyCinematicVocalPreset).presenceProc = e.presenceProc
        ∧ (e.applyCinematicVocalPreset).vocalCompProc = e.vocalCompProc
        ∧ (e.applyCinematicVocalPreset).modulationProc = e.modulationProc
        ∧ (e.applyCinematicVocalPreset).saturationProc = e.saturationProc
        ∧ (e.applyCinematicVocalPreset).delayProc = e.delayProc
        ∧ (e.applyCinematicVocalPreset).reverbProc = e.reverbProc
        ∧ (e.applyCinematicVocalPreset).multibandProc = e.multibandProc
        ∧ (e.applyCinematicVocalPreset).imagerProc = e.imagerProc
        ∧ (e.applyCinematicVocalPreset).loudnessProc = e.loudnessProc
        ∧ (e.applyCinematicVocalPreset).limiterProc = e.limiterProc)
    ∧ ((e.applyCinematicVocalPreset).highPassEnabled = true
        ∧ (e.applyCinematicVocalPreset).presenceEQEnabled = true
        ∧ (e.applyCinematicVocalPreset).vocalCompressorEnabled = true
        ∧ (e.applyCinematicVocalPreset).cinematicReverbEnabled = true
        ∧ (e.applyCinematicVocalPreset).subtleDelayEnabled = true
        ∧ (e.applyCinematicVocalPreset).modulationEnabled = false
        ∧ (e.applyCinematicVocalPreset).saturationEnabled = false
        ∧ (e.applyCinematicVocalPreset).multibandCompressorEnabled = true
        ∧ (e.applyCinematicVocalPreset).stereoImagerEnabled = true
        ∧ (e.applyCinematicVocalPreset).loudnessNormalizerEnabled = true
        ∧ (e.applyCinematicVocalPreset).finalLimiterEnabled = true) := by
  refine ⟨?_, ?_, ?_, ?_, ?_⟩
  · exact foldl_guarded_eq_foldl_enabled (e.stageList) buffer
  · exact ⟨rfl, rfl, rfl, rfl, rfl, rfl, rfl, rfl, rfl, rfl, rfl⟩
  · exact ⟨rfl, rfl, rfl, rfl, rfl, rfl, rfl, rfl, rfl, rfl, rfl⟩
  · exact ⟨rfl, rfl, rfl, rfl, rfl, rfl, rfl, rfl, rfl, rfl, rfl⟩
  · exact ⟨rfl, rfl, rfl, rfl, rfl, rfl, rfl, rfl, rfl, rfl, rfl⟩
